import Mathlib

/-!
Shallow embedding of the orientation and navigation math of the GeoCashV2
sources, `transponderCompass.tsx` and `transponderWaypoint.tsx`.  JavaScript
numbers are modelled as real numbers; `Math.atan2` and the JavaScript
remainder operator are given explicit real-valued definitions below, and
every definition mirrors the corresponding expression of the source.
-/

noncomputable section

open Real

/-- Real-valued model of JavaScript `Math.atan2(y, x)`: range `(-π, π]`,
with the convention `atan2 0 0 = 0`. -/
def atan2 (y x : ℝ) : ℝ :=
  if 0 < x then arctan (y / x)
  else if x < 0 then
    (if 0 ≤ y then arctan (y / x) + π else arctan (y / x) - π)
  else
    (if 0 < y then π / 2 else if y < 0 then -(π / 2) else 0)

/-- Truncation toward zero, as used by the JavaScript remainder operator. -/
def jsTrunc (r : ℝ) : ℤ :=
  if 0 ≤ r then ⌊r⌋ else ⌈r⌉

/-- Real-valued model of the JavaScript remainder operator `x % y`
(truncated division, result carrying the sign of the dividend). -/
def jsMod (x y : ℝ) : ℝ :=
  x - y * (jsTrunc (x / y) : ℝ)

/-- One instantaneous accelerometer or magnetometer reading, device axes. -/
structure SensorSample where
  x : ℝ
  y : ℝ
  z : ℝ

/-- A geographic position in signed degrees. -/
structure GeoPoint where
  latitude : ℝ
  longitude : ℝ

/-- The pair returned by `calculateNavigationData` in
`transponderWaypoint.tsx`: distance in meters and bearing in degrees. -/
structure NavigationResult where
  distance : ℝ
  bearing : ℝ

/-- The normalization block both magnetometer listeners apply to an angle in
degrees (`transponderCompass.tsx` lines 26-28, `transponderWaypoint.tsx`
lines 143-145): add 360 once if the angle is negative. -/
def condAdd360 (angle : ℝ) : ℝ :=
  if angle < 0 then angle + 360 else angle

/-- The angle in degrees computed by the magnetometer listeners before
normalization: `Math.atan2(-x, y) * (180 / Math.PI)`. -/
def magHeadingRaw (x y : ℝ) : ℝ :=
  atan2 (-x) y * (180 / π)

/-- The heading value a magnetometer listener stores
(`transponderCompass.tsx` lines 23-30, `transponderWaypoint.tsx` lines
142-147). -/
def magnetometerHeading (x y : ℝ) : ℝ :=
  condAdd360 (magHeadingRaw x y)

/-- Pitch in degrees, `transponderCompass.tsx` line 56:
`Math.atan2(accelerometerData.y, accelerometerData.z) * (180 / Math.PI)`. -/
def pitchDeg (acc : SensorSample) : ℝ :=
  atan2 acc.y acc.z * (180 / π)

/-- Roll in degrees, `transponderCompass.tsx` line 57. -/
def rollDeg (acc : SensorSample) : ℝ :=
  atan2 acc.x acc.z * (180 / π)

/-- Cosine of the roll angle, `transponderCompass.tsx` line 60. -/
def cosRoll (acc : SensorSample) : ℝ := Real.cos (rollDeg acc * π / 180)

/-- Sine of the roll angle, `transponderCompass.tsx` line 61. -/
def sinRoll (acc : SensorSample) : ℝ := Real.sin (rollDeg acc * π / 180)

/-- Cosine of the pitch angle, `transponderCompass.tsx` line 62. -/
def cosPitch (acc : SensorSample) : ℝ := Real.cos (pitchDeg acc * π / 180)

/-- Sine of the pitch angle, `transponderCompass.tsx` line 63. -/
def sinPitch (acc : SensorSample) : ℝ := Real.sin (pitchDeg acc * π / 180)

/-- Tilt-compensated magnetometer X value, `transponderCompass.tsx` line 66. -/
def magX (acc mag : SensorSample) : ℝ :=
  mag.x * cosPitch acc + mag.z * sinPitch acc

/-- Tilt-compensated magnetometer Y value, `transponderCompass.tsx` line 67. -/
def magY (acc mag : SensorSample) : ℝ :=
  mag.x * sinRoll acc * sinPitch acc + mag.y * cosRoll acc -
    mag.z * sinRoll acc * cosPitch acc

/-- Tilt-compensated heading, `transponderCompass.tsx` lines 70-73. -/
def compensatedHeading (acc mag : SensorSample) : ℝ :=
  condAdd360 (atan2 (-(magX acc mag)) (magY acc mag) * (180 / π))

/-- Heading selection of the `watchHeadingAsync` callback,
`transponderWaypoint.tsx` line 119:
`heading.trueHeading !== -1 ? heading.trueHeading : heading.magHeading`. -/
def selectHeading (trueHeading magHeading : ℝ) : ℝ :=
  if trueHeading ≠ -1 then trueHeading else magHeading

/-- The compass-heading state after a heading event: the callback stores
`selectHeading` unconditionally, ignoring the previous state
(`transponderWaypoint.tsx` lines 117-121). -/
def onHeadingEvent (prevHeading trueHeading magHeading : ℝ) : ℝ :=
  selectHeading trueHeading magHeading

/-- Needle rotation delta, `transponderWaypoint.tsx` lines 177-184:
`bearing - compassHeading`, then one conditional wrap by 360. -/
def shortestDelta (bearing compassHeading : ℝ) : ℝ :=
  if bearing - compassHeading > 180 then bearing - compassHeading - 360
  else if bearing - compassHeading < -180 then bearing - compassHeading + 360
  else bearing - compassHeading

/-- Earth radius used by the source: `const R = 6371e3`. -/
def earthRadius : ℝ := 6371000

/-- Origin latitude in radians, `transponderWaypoint.tsx` line 32. -/
def latRad (p : GeoPoint) : ℝ := p.latitude * π / 180

/-- Latitude difference in radians, `transponderWaypoint.tsx` line 34. -/
def deltaPhi (f t : GeoPoint) : ℝ := (t.latitude - f.latitude) * π / 180

/-- Longitude difference in radians, `transponderWaypoint.tsx` line 35. -/
def deltaLambda (f t : GeoPoint) : ℝ := (t.longitude - f.longitude) * π / 180

/-- The Haversine `a` term, `transponderWaypoint.tsx` lines 38-39. -/
def haversineA (f t : GeoPoint) : ℝ :=
  Real.sin (deltaPhi f t / 2) * Real.sin (deltaPhi f t / 2) +
    Real.cos (latRad f) * Real.cos (latRad t) *
      Real.sin (deltaLambda f t / 2) * Real.sin (deltaLambda f t / 2)

/-- The Haversine `c` term, `transponderWaypoint.tsx` line 40. -/
def haversineC (f t : GeoPoint) : ℝ :=
  2 * atan2 (Real.sqrt (haversineA f t)) (Real.sqrt (1 - haversineA f t))

/-- `calculatedDistance`, `transponderWaypoint.tsx` line 41. -/
def calculatedDistance (f t : GeoPoint) : ℝ := earthRadius * haversineC f t

/-- The bearing `y` term, `transponderWaypoint.tsx` line 44. -/
def bearingY (f t : GeoPoint) : ℝ :=
  Real.sin (deltaLambda f t) * Real.cos (latRad t)

/-- The bearing `x` term, `transponderWaypoint.tsx` lines 45-46. -/
def bearingX (f t : GeoPoint) : ℝ :=
  Real.cos (latRad f) * Real.sin (latRad t) -
    Real.sin (latRad f) * Real.cos (latRad t) * Real.cos (deltaLambda f t)

/-- `calculatedBearing`, `transponderWaypoint.tsx` lines 47-48:
`(θ * 180 / Math.PI + 360) % 360`. -/
def calculatedBearing (f t : GeoPoint) : ℝ :=
  jsMod (atan2 (bearingY f t) (bearingX f t) * 180 / π + 360) 360

/-- `calculateNavigationData`, `transponderWaypoint.tsx` lines 30-51. -/
def calculateNavigationData (fromLocation toLocation : GeoPoint) :
    NavigationResult :=
  { distance := calculatedDistance fromLocation toLocation
    bearing := calculatedBearing fromLocation toLocation }

lemma arctan_nonneg {x : ℝ} (h : 0 ≤ x) : 0 ≤ arctan x :=
  Real.arctan_zero ▸ Real.arctan_strictMono.monotone h

lemma arctan_nonpos {x : ℝ} (h : x ≤ 0) : arctan x ≤ 0 :=
  Real.arctan_zero ▸ Real.arctan_strictMono.monotone h

/-- The model of `Math.atan2` never exceeds `π`. -/
lemma atan2_le_pi (y x : ℝ) : atan2 y x ≤ π := by
  have hπ := Real.pi_pos
  have h2 := Real.arctan_lt_pi_div_two (y / x)
  unfold atan2
  split_ifs with h1 hneg hy hy1 hy2
  · linarith
  · have hyx : y / x ≤ 0 := div_nonpos_of_nonneg_of_nonpos hy hneg.le
    have := arctan_nonpos hyx
    linarith
  · linarith
  · linarith
  · linarith
  · linarith

/-- The model of `Math.atan2` is strictly greater than `-π`. -/
lemma neg_pi_lt_atan2 (y x : ℝ) : -π < atan2 y x := by
  have hπ := Real.pi_pos
  have h2 := Real.neg_pi_div_two_lt_arctan (y / x)
  unfold atan2
  split_ifs with h1 hneg hy hy1 hy2
  · linarith
  · linarith
  · have hyx : 0 < y / x := div_pos_of_neg_of_neg (lt_of_not_le hy) hneg
    have : (0 : ℝ) < arctan (y / x) :=
      Real.arctan_zero ▸ Real.arctan_strictMono hyx
    linarith
  · linarith
  · linarith
  · linarith

/-- When the first argument is nonnegative, the model of `Math.atan2` is
nonnegative. -/
lemma atan2_nonneg {y x : ℝ} (hy : 0 ≤ y) : 0 ≤ atan2 y x := by
  have hπ := Real.pi_pos
  have harc := Real.neg_pi_div_two_lt_arctan (y / x)
  unfold atan2
  split_ifs with h1 h2 h3 h4
  · exact arctan_nonneg (div_nonneg hy h1.le)
  · linarith
  · linarith
  · linarith
  · linarith

/-- JavaScript remainder with nonnegative dividend and positive divisor
lands in `[0, y)`. -/
lemma jsMod_mem_Ico {x y : ℝ} (hx : 0 ≤ x) (hy : 0 < y) :
    jsMod x y ∈ Set.Ico (0 : ℝ) y := by
  have hq : 0 ≤ x / y := div_nonneg hx hy.le
  have htr : jsTrunc (x / y) = ⌊x / y⌋ := if_pos hq
  have h1 : (⌊x / y⌋ : ℝ) ≤ x / y := Int.floor_le _
  have h2 : x / y < ⌊x / y⌋ + 1 := Int.lt_floor_add_one _
  have hxy : x = y * (x / y) := by field_simp
  constructor
  · have : y * (⌊x / y⌋ : ℝ) ≤ y * (x / y) :=
      mul_le_mul_of_nonneg_left h1 hy.le
    simp only [jsMod, htr]
    linarith [hxy ▸ this]
  · have : y * (x / y) < y * ((⌊x / y⌋ : ℝ) + 1) :=
      mul_lt_mul_of_pos_left h2 hy
    simp only [jsMod, htr]
    nlinarith [hxy ▸ this]


/-- Degree conversion of the atan2 model stays in `(-180, 180]`. -/
lemma atan2_deg_bounds (y x : ℝ) :
    -180 < atan2 y x * 180 / π ∧ atan2 y x * 180 / π ≤ 180 := by
  have hπ := Real.pi_pos
  have h1 := atan2_le_pi y x
  have h2 := neg_pi_lt_atan2 y x
  constructor
  · rw [lt_div_iff₀ hπ]
    nlinarith
  · rw [div_le_iff₀ hπ]
    nlinarith

/-- A number of magnitude at most 180 has minimal magnitude in its class
modulo 360. -/
lemma minimal_abs (s : ℝ) (hs : |s| ≤ 180) (m : ℤ) :
    |s| ≤ |s + 360 * (m : ℝ)| := by
  rcases eq_or_ne m 0 with h | h
  · simp [h]
  · have h1 : (1 : ℝ) ≤ |(m : ℝ)| := by
      have := Int.one_le_abs h
      exact_mod_cast this
    have h2 : (360 : ℝ) ≤ |360 * (m : ℝ)| := by
      rw [abs_mul, abs_of_pos (by norm_num : (0 : ℝ) < 360)]
      nlinarith
    have h4 := abs_sub_abs_le_abs_sub (360 * (m : ℝ)) (-s)
    rw [abs_neg, sub_neg_eq_add] at h4
    have h5 : |360 * (m : ℝ) + s| = |s + 360 * (m : ℝ)| := by rw [add_comm]
    linarith [h5 ▸ h4]

/-- The bearing produced by `calculateNavigationData` lies in `[0, 360)`,
for arbitrary (even out-of-range) inputs. -/
lemma calculatedBearing_mem_Ico (f t : GeoPoint) :
    calculatedBearing f t ∈ Set.Ico (0 : ℝ) 360 := by
  obtain ⟨hl, hu⟩ := atan2_deg_bounds (bearingY f t) (bearingX f t)
  have h0 : 0 ≤ atan2 (bearingY f t) (bearingX f t) * 180 / π + 360 := by
    linarith
  have := jsMod_mem_Ico h0 (by norm_num : (0 : ℝ) < 360)
  simpa [calculatedBearing] using this

/-- The distance produced by `calculateNavigationData` is nonnegative,
for arbitrary (even out-of-range) inputs. -/
lemma calculatedDistance_nonneg (f t : GeoPoint) :
    0 ≤ calculatedDistance f t := by
  unfold calculatedDistance haversineC earthRadius
  have h := atan2_nonneg
    (x := Real.sqrt (1 - haversineA f t)) (Real.sqrt_nonneg (haversineA f t))
  nlinarith

/-- The Haversine `a` term is symmetric in its two points. -/
lemma haversineA_symm (f t : GeoPoint) : haversineA f t = haversineA t f := by
  unfold haversineA deltaPhi deltaLambda latRad
  have h1 : (f.latitude - t.latitude) * π / 180 =
      -((t.latitude - f.latitude) * π / 180) := by ring
  have h2 : (f.longitude - t.longitude) * π / 180 =
      -((t.longitude - f.longitude) * π / 180) := by ring
  rw [h1, h2, neg_div, neg_div, Real.sin_neg, Real.sin_neg]
  ring

/-- The computed distance is symmetric in its two points. -/
lemma calculatedDistance_symm (f t : GeoPoint) :
    calculatedDistance f t = calculatedDistance t f := by
  unfold calculatedDistance haversineC
  rw [haversineA_symm]

/-- C6: for every pair of valid GeoPoints, the NavigationResult produced by
`calculateNavigationData` has bearing in `[0, 360)` and nonnegative
distance. -/
theorem C6_result_wellformed (f t : GeoPoint)
    (hf1 : -90 ≤ f.latitude) (hf2 : f.latitude ≤ 90)
    (hf3 : -180 ≤ f.longitude) (hf4 : f.longitude ≤ 180)
    (ht1 : -90 ≤ t.latitude) (ht2 : t.latitude ≤ 90)
    (ht3 : -180 ≤ t.longitude) (ht4 : t.longitude ≤ 180) :
    (calculateNavigationData f t).bearing ∈ Set.Ico (0 : ℝ) 360 ∧
      0 ≤ (calculateNavigationData f t).distance :=
  ⟨calculatedBearing_mem_Ico f t, calculatedDistance_nonneg f t⟩

/-- Witness for C6 at the pair (10°, 20°), (30°, 40°). -/
theorem C6_result_wellformed_witness :
    (calculateNavigationData ⟨10, 20⟩ ⟨30, 40⟩).bearing ∈ Set.Ico (0 : ℝ) 360 ∧
      0 ≤ (calculateNavigationData ⟨10, 20⟩ ⟨30, 40⟩).distance :=
  C6_result_wellformed ⟨10, 20⟩ ⟨30, 40⟩ (by norm_num) (by norm_num)
    (by norm_num) (by norm_num) (by norm_num) (by norm_num) (by norm_num)
    (by norm_num)

/-- C7: for every valid GeoPoint `A`, `calculateNavigationData A A` returns
distance exactly 0 and bearing exactly 0 (the `atan2 0 0 = 0` convention),
with no error path taken. -/
theorem C7_zero_distance (A : GeoPoint)
    (h1 : -90 ≤ A.latitude) (h2 : A.latitude ≤ 90)
    (h3 : -180 ≤ A.longitude) (h4 : A.longitude ≤ 180) :
    (calculateNavigationData A A).distance = 0 ∧
      (calculateNavigationData A A).bearing = 0 := by
  constructor
  · show calculatedDistance A A = 0
    have hdp : deltaPhi A A = 0 := by simp [deltaPhi]
    have hdl : deltaLambda A A = 0 := by simp [deltaLambda]
    have hA : haversineA A A = 0 := by simp [haversineA, hdp, hdl]
    have h01 : atan2 0 1 = 0 := by norm_num [atan2]
    simp [calculatedDistance, haversineC, hA, Real.sqrt_zero, Real.sqrt_one,
      h01]
  · show calculatedBearing A A = 0
    have hdl : deltaLambda A A = 0 := by simp [deltaLambda]
    have hY : bearingY A A = 0 := by simp [bearingY, hdl]
    have hX : bearingX A A = 0 := by
      simp [bearingX, hdl]
      ring
    have h00 : atan2 0 0 = 0 := by norm_num [atan2]
    have hm : jsMod 360 360 = 0 := by norm_num [jsMod, jsTrunc]
    simp [calculatedBearing, hY, hX, h00, hm]

/-- Witness for C7 at the equator point (0°, 0°). -/
theorem C7_zero_distance_witness :
    (calculateNavigationData ⟨0, 0⟩ ⟨0, 0⟩).distance = 0 ∧
      (calculateNavigationData ⟨0, 0⟩ ⟨0, 0⟩).bearing = 0 :=
  C7_zero_distance ⟨0, 0⟩ (by norm_num) (by norm_num) (by norm_num)
    (by norm_num)

/-- C8: the Haversine distance computed by `calculateNavigationData` is
symmetric for all valid GeoPoint pairs (exactly, in the real-number
model). -/
theorem C8_haversine_symm (A B : GeoPoint)
    (hA1 : -90 ≤ A.latitude) (hA2 : A.latitude ≤ 90)
    (hA3 : -180 ≤ A.longitude) (hA4 : A.longitude ≤ 180)
    (hB1 : -90 ≤ B.latitude) (hB2 : B.latitude ≤ 90)
    (hB3 : -180 ≤ B.longitude) (hB4 : B.longitude ≤ 180) :
    (calculateNavigationData A B).distance =
      (calculateNavigationData B A).distance :=
  calculatedDistance_symm A B

/-- Witness for C8 at the pair (37.7749°, -122.4194°), (40.7128°, -74.006°). -/
theorem C8_haversine_symm_witness :
    (calculateNavigationData ⟨37.7749, -122.4194⟩ ⟨40.7128, -74.006⟩).distance =
      (calculateNavigationData ⟨40.7128, -74.006⟩ ⟨37.7749, -122.4194⟩).distance :=
  C8_haversine_symm ⟨37.7749, -122.4194⟩ ⟨40.7128, -74.006⟩ (by norm_num)
    (by norm_num) (by norm_num) (by norm_num) (by norm_num) (by norm_num)
    (by norm_num) (by norm_num)

/-- C1 counterexample: the normalization the code actually applies is a
single conditional add, so on input -450 it yields -90, which is neither
270 nor inside `[0, 360)`. -/
theorem C1_normalize_counterexample :
    condAdd360 (-450) = -90 ∧ condAdd360 (-450) ∉ Set.Ico (0 : ℝ) 360 ∧
      condAdd360 (-450) ≠ 270 := by
  norm_num [condAdd360, Set.mem_Ico]

/-- C1 amended: the normalization in the code returns a value in `[0, 360)` only
for inputs in `[-360, 360)`; on that range it is idempotent, and it is the
identity on already-normalized (nonnegative) inputs. -/
theorem C1_normalize_amended (a : ℝ) (h0 : -360 ≤ a) (h1 : a < 360) :
    condAdd360 a ∈ Set.Ico (0 : ℝ) 360 ∧
      condAdd360 (condAdd360 a) = condAdd360 a ∧
      (0 ≤ a → condAdd360 a = a) := by
  simp only [condAdd360, Set.mem_Ico]
  split_ifs with h2 h3 <;>
    refine ⟨⟨by linarith, by linarith⟩, by linarith, ?_⟩ <;> intro h <;> linarith

/-- Witness for C1 amended at input -90. -/
theorem C1_normalize_witness :
    condAdd360 (-90) ∈ Set.Ico (0 : ℝ) 360 ∧
      condAdd360 (condAdd360 (-90)) = condAdd360 (-90) ∧
      ((0 : ℝ) ≤ -90 → condAdd360 (-90) = -90) :=
  C1_normalize_amended (-90) (by norm_num) (by norm_num)

/-- C2 counterexample: for bearing 0 and heading 180 the code returns -180,
which is outside the half-open interval `(-180, 180]` the claim names. -/
theorem C2_delta_counterexample :
    shortestDelta 0 180 = -180 ∧
      shortestDelta 0 180 ∉ Set.Ioc (-180 : ℝ) 180 := by
  norm_num [shortestDelta, Set.mem_Ioc]

/-- C2 amended: for bearing and heading in `[0, 360)` the rotation delta
lies in the closed interval `[-180, 180]`, differs from `a - b` by an
integer multiple of 360, has minimal magnitude among all angles congruent
to `a - b` modulo 360, and `shortestDelta 350 10 = -20`. -/
theorem C2_delta_amended (a b : ℝ) (ha0 : 0 ≤ a) (ha1 : a < 360)
    (hb0 : 0 ≤ b) (hb1 : b < 360) :
    (-180 ≤ shortestDelta a b ∧ shortestDelta a b ≤ 180) ∧
      (∃ k : ℤ, shortestDelta a b = a - b + 360 * (k : ℝ)) ∧
      (∀ k : ℤ, |shortestDelta a b| ≤ |a - b + 360 * (k : ℝ)|) ∧
      shortestDelta 350 10 = -20 := by
  have hbounds : -180 ≤ shortestDelta a b ∧ shortestDelta a b ≤ 180 := by
    unfold shortestDelta
    split_ifs <;> constructor <;> linarith
  have hk : ∃ k : ℤ, shortestDelta a b = a - b + 360 * (k : ℝ) := by
    unfold shortestDelta
    split_ifs
    · exact ⟨-1, by push_cast; ring⟩
    · exact ⟨1, by push_cast; ring⟩
    · exact ⟨0, by push_cast; ring⟩
  refine ⟨hbounds, hk, ?_, by norm_num [shortestDelta]⟩
  intro k
  obtain ⟨j, hj⟩ := hk
  have habs : |shortestDelta a b| ≤ 180 := abs_le.mpr hbounds
  have heq : a - b + 360 * (k : ℝ) =
      shortestDelta a b + 360 * ((k - j : ℤ) : ℝ) := by
    push_cast
    linarith [hj]
  rw [heq]
  exact minimal_abs _ habs _

/-- Witness for C2 amended at bearing 350, heading 10. -/
theorem C2_delta_witness :
    (-180 ≤ shortestDelta 350 10 ∧ shortestDelta 350 10 ≤ 180) ∧
      (∃ k : ℤ, shortestDelta 350 10 = 350 - 10 + 360 * (k : ℝ)) ∧
      (∀ k : ℤ, |shortestDelta 350 10| ≤ |350 - 10 + 360 * (k : ℝ)|) ∧
      shortestDelta 350 10 = -20 :=
  C2_delta_amended 350 10 (by norm_num) (by norm_num) (by norm_num)
    (by norm_num)

/-- C10: at the magnetometer call sites the raw atan2 angle in degrees is
always within `[-180, 180]`, so the single conditional add produces a
heading in `[0, 360)` for every sample. -/
theorem C10_callsite_range (x y : ℝ) :
    (-180 ≤ magHeadingRaw x y ∧ magHeadingRaw x y ≤ 180) ∧
      magnetometerHeading x y ∈ Set.Ico (0 : ℝ) 360 := by
  obtain ⟨hl, hu⟩ := atan2_deg_bounds (-x) y
  have heq : magHeadingRaw x y = atan2 (-x) y * 180 / π := by
    unfold magHeadingRaw
    ring
  have h1 : -180 ≤ magHeadingRaw x y := by rw [heq]; linarith
  have h2 : magHeadingRaw x y ≤ 180 := by rw [heq]; exact hu
  refine ⟨⟨h1, h2⟩, ?_⟩
  simp only [magnetometerHeading, condAdd360, Set.mem_Ico]
  split_ifs with h <;> constructor <;> linarith

/-- C3: evaluation of the heading callback at the failing input.  With both
heading fields carrying the sentinel -1 and a previous heading of 42, the
code stores -1 as the current heading instead of keeping 42, contradicting
the claim that the exposed heading is never set to the sentinel. -/
theorem C3_sentinel_bug :
    onHeadingEvent 42 (-1) (-1) = -1 ∧ onHeadingEvent 42 (-1) (-1) ≠ 42 := by
  norm_num [onHeadingEvent, selectHeading]

/-- C9: the heading callback prefers true heading over magnetic heading:
a non-sentinel true heading is adopted, otherwise the magnetic heading is;
in particular the event (-1, 87) yields current heading 87. -/
theorem C9_prefer_true_heading (t m : ℝ) :
    (t ≠ -1 → selectHeading t m = t) ∧ (t = -1 → selectHeading t m = m) ∧
      selectHeading (-1) 87 = 87 := by
  refine ⟨fun h => if_pos h, fun h => ?_, ?_⟩
  · simp [selectHeading, h]
  · norm_num [selectHeading]

/-- Witness for C9: a valid true heading 272 is adopted, and with true
heading -1 the magnetic heading 87 is adopted. -/
theorem C9_prefer_true_heading_witness :
    selectHeading 272 87 = 272 ∧ selectHeading (-1) 87 = 87 :=
  ⟨(C9_prefer_true_heading 272 87).1 (by norm_num),
   (C9_prefer_true_heading (-1) 87).2.1 rfl⟩

/-- C5: when the computed pitch and roll are both zero, the
tilt-compensated heading coincides exactly with the uncompensated
magnetometer heading for the same magnetometer vector. -/
theorem C5_level_identity (acc mag : SensorSample)
    (hp : pitchDeg acc = 0) (hr : rollDeg acc = 0)
    (hm : ¬(mag.x = 0 ∧ mag.y = 0)) :
    compensatedHeading acc mag = magnetometerHeading mag.x mag.y := by
  have hcp : cosPitch acc = 1 := by simp [cosPitch, hp]
  have hsp : sinPitch acc = 0 := by simp [sinPitch, hp]
  have hcr : cosRoll acc = 1 := by simp [cosRoll, hr]
  have hsr : sinRoll acc = 0 := by simp [sinRoll, hr]
  have hx : magX acc mag = mag.x := by simp [magX, hcp, hsp]
  have hy : magY acc mag = mag.y := by simp [magY, hcr, hsr, hsp, hcp]
  simp [compensatedHeading, magnetometerHeading, magHeadingRaw, hx, hy]

/-- Witness for C5: a level device (gravity along +Z) and magnetometer
vector (0, 1, 0). -/
theorem C5_level_identity_witness :
    compensatedHeading ⟨0, 0, 1⟩ ⟨0, 1, 0⟩ = magnetometerHeading 0 1 :=
  C5_level_identity ⟨0, 0, 1⟩ ⟨0, 1, 0⟩ (by norm_num [pitchDeg, atan2])
    (by norm_num [rollDeg, atan2]) (by simp)

/-- C4 counterexample: latitude 180 is out of range, yet the computation
silently produces a definite NavigationResult (the antipodal distance
6371000·π and bearing 0) instead of rejecting the call. -/
theorem C4_no_validation_counterexample :
    (180 : ℝ) ∉ Set.Icc (-90 : ℝ) 90 ∧
      (calculateNavigationData ⟨180, 0⟩ ⟨0, 0⟩).distance = 6371000 * π ∧
      (calculateNavigationData ⟨180, 0⟩ ⟨0, 0⟩).bearing = 0 := by
  refine ⟨by norm_num, ?_, ?_⟩
  · show calculatedDistance ⟨180, 0⟩ ⟨0, 0⟩ = 6371000 * π
    have hdp : deltaPhi ⟨180, 0⟩ ⟨0, 0⟩ = -π := by
      simp [deltaPhi]
      ring
    have hdl : deltaLambda ⟨180, 0⟩ ⟨0, 0⟩ = 0 := by simp [deltaLambda]
    have hA : haversineA ⟨180, 0⟩ ⟨0, 0⟩ = 1 := by
      simp [haversineA, hdp, hdl, neg_div, Real.sin_neg, Real.sin_pi_div_two]
    have h10 : atan2 1 0 = π / 2 := by norm_num [atan2]
    simp [calculatedDistance, haversineC, hA, Real.sqrt_one, Real.sqrt_zero,
      h10, earthRadius]
    ring
  · show calculatedBearing ⟨180, 0⟩ ⟨0, 0⟩ = 0
    have hdl : deltaLambda ⟨180, 0⟩ ⟨0, 0⟩ = 0 := by simp [deltaLambda]
    have hlf : latRad ⟨180, 0⟩ = π := by simp [latRad]
    have hlt : latRad ⟨0, 0⟩ = 0 := by simp [latRad]
    have hY : bearingY ⟨180, 0⟩ ⟨0, 0⟩ = 0 := by simp [bearingY, hdl]
    have hX : bearingX ⟨180, 0⟩ ⟨0, 0⟩ = 0 := by
      simp [bearingX, hdl, hlf, hlt, Real.sin_pi]
    have h00 : atan2 0 0 = 0 := by norm_num [atan2]
    have hm : jsMod 360 360 = 0 := by norm_num [jsMod, jsTrunc]
    simp [calculatedBearing, hY, hX, h00, hm]

/-- C4 amended: the computation performs no coordinate-range validation at
all; for every input pair, in range or not, it silently produces a
NavigationResult with nonnegative distance and normalized bearing. -/
theorem C4_no_validation_amended (f t : GeoPoint) :
    0 ≤ (calculateNavigationData f t).distance ∧
      (calculateNavigationData f t).bearing ∈ Set.Ico (0 : ℝ) 360 :=
  ⟨calculatedDistance_nonneg f t, calculatedBearing_mem_Ico f t⟩
